import Mathlib

/-!
Shallow embedding of the skincare-tracking application `src/app.py`
(Streamlit, single file).  The pure scoring and recommendation engine
(`pseudo_analyze_image`), the gamification state transitions (routine
finalize in `my_routine_page`, checker finalize in
`daily_routine_ai_checker_page`, streak computation in `dashboard_page`)
and the credential operations (`hash_password`, `check_password`,
registration in `login_register_page`) are translated into executable
Lean definitions; theorems about the spec's claims follow.

Numeric conventions: Python floats are idealised as exact rationals (ℚ);
Python's `int(x)` conversion truncates toward zero and is modelled by
`pyInt`; Python's integer floor division `//` is modelled by `Int.fdiv`.
-/

namespace Skinova

/-- Python's `int()` conversion applied to a float: truncation toward
zero (floor for non-negative arguments, ceiling for negative ones). -/
def pyInt (q : ℚ) : ℤ := if 0 ≤ q then ⌊q⌋ else ⌈q⌉

/-! ## Data model of the scoring engine (`pseudo_analyze_image`) -/

/-- The lifestyle inputs collected by `skin_analyzer_page`
(sliders: sleep 4–12, water 0.5–4.0, stress 1–10, diet 1–5). -/
structure LifestyleFactors where
  sleep_hours : ℚ
  water_intake : ℚ
  stress_level : ℚ
  diet_quality : ℚ
  deriving DecidableEq

/-- Per-channel pixel means of the decoded RGB image
(`rgb_mean` in the source). -/
structure RGBMeans where
  r : ℚ
  g : ℚ
  b : ℚ
  deriving DecidableEq

/-- The three scalar image features the source derives inside the `try`
block: raw average brightness (0–255 scale), the binary contrast
heuristic and the redness factor. -/
structure ImageFeatures where
  avg_brightness : ℚ
  contrast_heuristic : ℚ
  redness_factor : ℚ
  deriving DecidableEq

/-- The self-reported onboarding profile fields that the scoring engine
reads (`user_data['onboarding']['skin_type']` and
`user_data['onboarding']['primary_concerns']`). -/
structure Onboarding where
  skin_type : String
  primary_concerns : List String
  deriving DecidableEq

/-- The subset of the image features stored back into the result dict
(`'image_features'` key holds only `avg_brightness` and
`redness_factor`). -/
structure StoredImageFeatures where
  avg_brightness : ℚ
  redness_factor : ℚ
  deriving DecidableEq

/-- The nested `'recommendations'` dict of the result. -/
structure Recommendations where
  product_categories : List String
  lifestyle_actions : String
  deriving DecidableEq

/-- The analysis dictionary returned by `pseudo_analyze_image`.  The
`timestamp` field (wall-clock `datetime.now()`) is the one field not
modelled: it is the only non-deterministic output. -/
structure AnalysisResult where
  image_features : StoredImageFeatures
  lifestyle_factors : LifestyleFactors
  detected_skin_type : String
  current_score : ℤ
  future_score_proj_7 : ℤ
  future_score_proj_30 : ℤ
  future_score_proj_90 : ℤ
  explanation : String
  hydration_score : ℤ
  acne_risk_pct : ℤ
  pigmentation_risk_pct : ℤ
  pore_visibility_estimate : String
  sleep_impact_pct : ℤ
  stress_impact_pct : ℤ
  recommendations : Recommendations
  routine_morning : List String
  routine_evening : List String
  deriving DecidableEq

/-! ## Scoring engine -/

/-- Image feature extraction from a successfully decoded image
(the `try` block of `pseudo_analyze_image`). -/
def extract_features (m : RGBMeans) : ImageFeatures :=
  let avg_brightness := (m.r + m.g + m.b) / 3
  { avg_brightness := avg_brightness
    contrast_heuristic := if avg_brightness < 100 ∨ avg_brightness > 200 then 0.5 else 1.0
    redness_factor := if m.r > m.g * 1.1 ∧ m.r > m.b * 1.1 then 1.2 else 1.0 }

/-- The fixed fallback features substituted by the `except` branch of
`pseudo_analyze_image` when image decoding fails. -/
def fallbackFeatures : ImageFeatures :=
  { avg_brightness := 150, contrast_heuristic := 1.0, redness_factor := 1.0 }

/-- `sleep_score = (sleep_hours - 5) / 5`. -/
def sleepScore (lf : LifestyleFactors) : ℚ := (lf.sleep_hours - 5) / 5

/-- `water_score = water_intake / 4`. -/
def waterScore (lf : LifestyleFactors) : ℚ := lf.water_intake / 4

/-- `stress_score = (10 - stress_level) / 10`. -/
def stressScore (lf : LifestyleFactors) : ℚ := (10 - lf.stress_level) / 10

/-- `diet_score = diet_quality / 5`. -/
def dietScore (lf : LifestyleFactors) : ℚ := lf.diet_quality / 5

/-- `base_image_score = (avg_brightness / 255.0) * 0.4 + (1.0 - contrast_heuristic) * 0.2`. -/
def baseImageScore (ft : ImageFeatures) : ℚ :=
  (ft.avg_brightness / 255) * 0.4 + (1 - ft.contrast_heuristic) * 0.2

/-- `lifestyle_impact_score`, the weighted sum of the four normalized
lifestyle scores. -/
def lifestyleImpact (lf : LifestyleFactors) : ℚ :=
  sleepScore lf * 0.25 + waterScore lf * 0.25 + stressScore lf * 0.35 + dietScore lf * 0.15

/-- The raw (pre-`int`, pre-clamp) score
`(base_image_score * 0.4 + lifestyle_impact_score * 0.6) * 100 * (1/redness_factor)`. -/
def rawScore (ft : ImageFeatures) (lf : LifestyleFactors) : ℚ :=
  (baseImageScore ft * 0.4 + lifestyleImpact lf * 0.6) * 100 * (1 / ft.redness_factor)

/-- The body of `pseudo_analyze_image` after feature extraction: the
deterministic scoring, projection, explanation, routine and
recommendation logic, translated statement by statement. -/
def analysisFromFeatures (ft : ImageFeatures) (lf : LifestyleFactors)
    (ob : Onboarding) : AnalysisResult :=
  let current_score : ℤ := max 50 (min 95 (pyInt (rawScore ft lf)))
  let hydration_score : ℤ :=
    max 50 (min 99 (pyInt ((waterScore lf * 0.6 + ft.avg_brightness / 255 * 0.4) * 100)))
  let base_risk : ℚ := 50 - (current_score : ℚ) / 2
  let base_risk : ℚ :=
    if ob.skin_type = "Oily" ∨ ob.skin_type = "Combination" then base_risk + 10 else base_risk
  let acne_risk_pct : ℤ :=
    min 90 (max 10 (pyInt (base_risk + (1 - stressScore lf) * 15 + (1 - dietScore lf) * 10)))
  let pigmentation_risk_pct : ℤ :=
    min 70 (max 5 (pyInt (20 + (1 - baseImageScore ft) * 15 + (1 - waterScore lf) * 10)))
  let future_delta : ℤ := pyInt ((lifestyleImpact lf - 0.5) * 20)
  let proj_7 : ℤ := min 100 (current_score + max 0 (Int.fdiv future_delta 3))
  let proj_30 : ℤ := min 100 (current_score + max 0 future_delta)
  let proj_90 : ℤ := min 100 (current_score + max 0 (future_delta * 2))
  let brightness_pct : ℤ := pyInt (ft.avg_brightness / 255 * 100)
  let stress_contrib : ℤ := pyInt ((1 - stressScore lf) * 100)
  let explanation : String :=
    "Your score is **" ++ toString current_score ++
    "**. The image analysis detected a fair quality skin base, but a higher **" ++
    toString brightness_pct ++
    "% average brightness** which can be a sign of mild dryness/redness. " ++
    "The most significant factor impacting your score is your **Stress Level** (contributing " ++
    toString stress_contrib ++
    "% to the negative impact). Improvements in sleep and stress management " ++
    "are projected to increase your score significantly in 90 days."
  let morning_routine : List String :=
    ["Cleanse: Gentle Hydrating Cleanser", "Treat: Vitamin C Serum", "Protect: SPF 30+ Sunscreen"]
  let evening_routine : List String :=
    ["Cleanse: Double Cleanse (Oil + Foam)", "Treat: Niacinamide Serum",
     "Moisturize: Barrier Repair Cream"]
  let evening_routine : List String :=
    if "Acne" ∈ ob.primary_concerns ∨ acne_risk_pct > 50 then
      evening_routine.set 1 "Treat: Salicylic Acid (BHA) Serum"
    else evening_routine
  let evening_routine : List String :=
    if "Wrinkles" ∈ ob.primary_concerns then
      evening_routine ++ ["Treat: Retinoid Cream (3x/week)"]
    else evening_routine
  { image_features := { avg_brightness := ft.avg_brightness, redness_factor := ft.redness_factor }
    lifestyle_factors := lf
    detected_skin_type := ob.skin_type
    current_score := current_score
    future_score_proj_7 := proj_7
    future_score_proj_30 := proj_30
    future_score_proj_90 := proj_90
    explanation := explanation
    hydration_score := hydration_score
    acne_risk_pct := acne_risk_pct
    pigmentation_risk_pct := pigmentation_risk_pct
    pore_visibility_estimate :=
      if ob.skin_type = "Oily" ∨ ob.skin_type = "Combination" ∨ acne_risk_pct > 50
      then "High" else "Low"
    sleep_impact_pct := pyInt ((1 - sleepScore lf) * 100)
    stress_impact_pct := pyInt ((1 - stressScore lf) * 100)
    recommendations :=
      { product_categories :=
          ["Hyaluronic Acid Serums", "Ceramide Moisturizers", "Broad Spectrum Sunscreens"]
        lifestyle_actions :=
          "Focus on **Stress Reduction** (daily 10 min meditation). " ++
          "Increase **Water Intake** to 3L/day. Target 8 hours of sleep." }
    routine_morning := morning_routine
    routine_evening := evening_routine }

/-- `pseudo_analyze_image`: feature extraction with the image-decode
`try/except` (a failed decode is `none`), followed by the deterministic
analysis body. -/
def pseudo_analyze_image (decoded : Option RGBMeans) (lf : LifestyleFactors)
    (ob : Onboarding) : AnalysisResult :=
  match decoded with
  | some m => analysisFromFeatures (extract_features m) lf ob
  | none => analysisFromFeatures fallbackFeatures lf ob

/-! ## Gamification: routine finalization (`my_routine_page`)

The finalize button handler reads today's entry of
`user_data['daily_completion']`, and awards `+5` points (via
`update_user_points`) when the routine is fully checked, guarded by
`if not user_data['daily_completion'].get(today_str, {}).get('is_complete', False)`.
Checkbox states are modelled as `List Bool` in step order. -/

/-- Today's entry of `daily_completion` as written by the routine
finalize handler. -/
structure DailyRoutineRec where
  morning : List Bool
  evening : List Bool
  is_complete : Bool
  points_awarded : ℕ
  deriving DecidableEq

/-- The state the routine finalize handler reads and writes for one
user and one calendar date: the date's `daily_completion` entry (absent
before any finalize) and the user's total `points`. -/
structure RoutineState where
  today : Option DailyRoutineRec
  points : ℕ
  deriving DecidableEq

/-- `daily_completion.get(today_str, {}).get('is_complete', False)`:
the guard of the finalize handler. -/
def finalizedComplete (s : RoutineState) : Bool :=
  match s.today with
  | some r => r.is_complete
  | none => false

/-- One press of "Finalize Today's Routine & Claim Points" with the
morning/evening checkboxes in the given states (lines 901–924 of the
source): if the guard passes, recompute `is_complete`, store the
checkbox states and `points_awarded`, and add the award to the user's
total points; otherwise do nothing. -/
def routineFinalize (s : RoutineState) (morning evening : List Bool) : RoutineState :=
  if finalizedComplete s then s
  else
    let total_completed := morning.count true + evening.count true
    let total_steps := morning.length + evening.length
    let is_complete_today := total_completed == total_steps
    let points_to_award := if is_complete_today then 5 else 0
    { today := some { morning := morning, evening := evening,
                      is_complete := is_complete_today, points_awarded := points_to_award }
      points := s.points + points_to_award }

/-! ## Gamification: checker finalization (`daily_routine_ai_checker_page`)

The 15-task checker awards `completed_tasks * 5` as a high-water mark:
`new_points = current_score - already_awarded`; positive deltas are
granted and recorded, negative deltas persist the task state only, a
zero delta does nothing. -/

/-- The per-date checker state the finalize handler reads and writes:
the stored task states (`'checker'`), the high-water award
(`'checker_points_awarded'`, default 0) and the user's total points. -/
structure CheckerState where
  checker : List Bool
  checker_points_awarded : ℕ
  points : ℕ
  deriving DecidableEq

/-- One press of "Finalize Daily Checker & Claim Points" with the task
checkboxes in state `current` (lines 1399–1424 of the source). -/
def checkerFinalize (s : CheckerState) (current : List Bool) : CheckerState :=
  let completed_tasks := current.count true
  let current_score := completed_tasks * 5
  let already_awarded := s.checker_points_awarded
  if already_awarded < current_score then
    { checker := current, checker_points_awarded := current_score,
      points := s.points + (current_score - already_awarded) }
  else if current_score < already_awarded then
    { checker := current, checker_points_awarded := s.checker_points_awarded,
      points := s.points }
  else s

/-- The largest completed-task count observed over a sequence of
checker finalizes. -/
def maxCount (css : List (List Bool)) : ℕ :=
  css.foldr (fun c m => max (c.count true) m) 0

/-! ## Gamification: streak (`dashboard_page`, lines 439–450)

`complete i` abstracts the lookup
`daily_completions.get((today - timedelta(days=i)).isoformat(), {}).get('is_complete', False)`:
it is `false` on every day with no (or a malformed) entry.  A fresh
user with no history is `fun _ => false`. -/

/-- The dashboard streak: 0 unless yesterday is complete, else the
number of consecutive complete days walking backward from yesterday,
examined by the loop `for i in range(1, 100)` with `break` on the
first incomplete day. -/
def streakCount (complete : ℕ → Bool) : ℕ :=
  if complete 1 then ((List.range' 1 99).takeWhile complete).length else 0

/-! ## Credential manager and registration (`login_register_page`)

`hashlib.sha256((password + salt).encode()).hexdigest()` is an opaque
deterministic digest; it is passed in as a parameter `digest`.  The
fresh random salt (`uuid.uuid4().hex`) is likewise supplied by the
caller.  The credential store `USERS` and the application store `DATA`
are association lists keyed by username. -/

/-- A stored credential: `{'password': hashed, 'salt': salt}`. -/
structure CredRecord where
  password : String
  salt : String
  deriving DecidableEq

/-- The default per-user application record created by `get_user_data`
(opaque append-only logs `forum_posts` / `expert_requests` omitted). -/
structure UserData where
  onboarding : Option Onboarding
  analysis_history : List AnalysisResult
  points : ℕ
  routine_morning : List String
  routine_evening : List String
  kit : List ℕ
  daily_completion : List (String × DailyRoutineRec)
  deriving DecidableEq

/-- The fresh record `get_user_data` writes for an unknown username. -/
def defaultUserData : UserData :=
  { onboarding := none, analysis_history := [], points := 0,
    routine_morning := [], routine_evening := [], kit := [], daily_completion := [] }

/-- `get_user_data(username)`: initialize the user's entry in `DATA` if
absent (returning the updated store). -/
def get_user_data (data : List (String × UserData)) (u : String) :
    List (String × UserData) :=
  if (data.lookup u).isSome then data else data ++ [(u, defaultUserData)]

/-- `hash_password(password, salt)` with the salt supplied: returns the
digest of `password + salt` together with the salt. -/
def hash_password (digest : String → String) (password salt : String) : String × String :=
  (digest (password ++ salt), salt)

/-- `check_password(hashed_password, password, salt)`. -/
def check_password (digest : String → String) (hashed_password password salt : String) :
    Bool :=
  hashed_password == digest (password ++ salt)

/-- The registration form handler (lines 271–281 of the source):
duplicate username → error, empty username or password → error,
otherwise store the salted hash and initialize the user-data record.
Returns the updated credential store, the updated application store,
and whether registration succeeded. -/
def registerSubmit (digest : String → String)
    (users : List (String × CredRecord)) (data : List (String × UserData))
    (new_username new_password salt : String) :
    List (String × CredRecord) × List (String × UserData) × Bool :=
  if (users.lookup new_username).isSome then (users, data, false)
  else if new_username = "" ∨ new_password = "" then (users, data, false)
  else
    let hp := hash_password digest new_password salt
    (users ++ [(new_username, { password := hp.1, salt := hp.2 })],
     get_user_data data new_username, true)

/-- The login form handler's credential check: unknown usernames and
wrong passwords are both rejected. -/
def authenticate (digest : String → String)
    (users : List (String × CredRecord)) (username password : String) : Bool :=
  match users.lookup username with
  | some r => check_password digest r.password password r.salt
  | none => false

/-! ## Spec-side definitions (for comparison with the code)

These two definitions follow the wording of the specification §4.3
(uniform `clamp(round(...), lo, hi)` formulas) rather than the source,
and exist only to state refinement/rounding claims against the code
definitions above. -/

/-- The spec's `clamp(x, lo, hi)`. -/
def clamp (lo hi x : ℤ) : ℤ := max lo (min hi x)

/-- The spec's `oilyBonus`: 10 if the self-reported skin type is Oily
or Combination, else 0. -/
def oilyBonus (ob : Onboarding) : ℚ :=
  if ob.skin_type = "Oily" ∨ ob.skin_type = "Combination" then 10 else 0

/-! ## Helper lemmas -/

set_option linter.unnecessarySeqFocus false in
lemma checkerFinalize_step (s : CheckerState) (c : List Bool) :
    (checkerFinalize s c).points = s.points + (c.count true * 5 - s.checker_points_awarded)
    ∧ (checkerFinalize s c).checker_points_awarded
        = max s.checker_points_awarded (c.count true * 5) := by
  unfold checkerFinalize
  dsimp only
  split
  · refine ⟨?_, ?_⟩ <;> simp <;> omega
  · split
    · refine ⟨?_, ?_⟩ <;> simp <;> omega
    · refine ⟨?_, ?_⟩ <;> simp <;> omega

lemma checkerFinalize_fold (css : List (List Bool)) :
    ∀ s : CheckerState,
      ((css.foldl checkerFinalize s).points
          = s.points + (max s.checker_points_awarded (5 * maxCount css)
              - s.checker_points_awarded))
      ∧ ((css.foldl checkerFinalize s).checker_points_awarded
          = max s.checker_points_awarded (5 * maxCount css)) := by
  induction css with
  | nil => intro s; simp [maxCount]
  | cons c t ih =>
      intro s
      have hstep := checkerFinalize_step s c
      have ht := ih (checkerFinalize s c)
      have hmc : maxCount (c :: t) = max (c.count true) (maxCount t) := rfl
      simp only [List.foldl_cons]
      refine ⟨?_, ?_⟩
      · rw [ht.1, hstep.1, hstep.2, hmc]; omega
      · rw [ht.2, hstep.2, hmc]; omega

lemma takeWhile_range'_window (N : ℕ) :
    ∀ (len a : ℕ), 1 ≤ a →
      ((List.range' a len).takeWhile (fun i => decide (1 ≤ i ∧ i ≤ N))).length
        = min (N + 1 - a) len := by
  intro len
  induction len with
  | zero => intro a _; simp
  | succ n ih =>
      intro a ha
      rw [List.range'_succ, List.takeWhile_cons]
      by_cases hN : a ≤ N
      · have hd : (decide (1 ≤ a ∧ a ≤ N)) = true := by simp [ha, hN]
        simp only [hd, if_true, List.length_cons]
        rw [ih (a + 1) (by omega)]
        omega
      · have hd : (decide (1 ≤ a ∧ a ≤ N)) = false := by simp [hN]
        simp only [hd, Bool.false_eq_true, if_false, List.length_nil]
        omega

lemma lookup_append_of_none {V : Type} (l : List (String × V)) (u : String) (x : V)
    (h : l.lookup u = none) : (l ++ [(u, x)]).lookup u = some x := by
  induction l with
  | nil => simp [List.lookup]
  | cons kv t ih =>
      obtain ⟨k, v⟩ := kv
      cases hk : (u == k) with
      | true =>
          exfalso
          simp only [List.lookup, hk] at h
          exact Option.noConfusion h
      | false =>
          simp only [List.cons_append, List.lookup, hk] at h ⊢
          exact ih h

/-! ## Claim C1 — routine finalize idempotence -/

/-- Claim C1, counterexample: finalizing with an incomplete routine
(1 of 6 steps) and then finalizing again with all steps checked is not
a no-op — the second finalize changes the date's `points_awarded` from
0 to 5 and raises the user's total points from 0 to 5, contradicting
the claim that a second finalize never changes either. -/
theorem routine_refinalize_awards_after_incomplete :
    (routineFinalize { today := none, points := 0 }
        [true, false, false] [false, false, false]).points = 0
    ∧ ((routineFinalize { today := none, points := 0 }
        [true, false, false] [false, false, false]).today.map
          DailyRoutineRec.points_awarded) = some 0
    ∧ (routineFinalize
        (routineFinalize { today := none, points := 0 }
          [true, false, false] [false, false, false])
        [true, true, true] [true, true, true]).points = 5
    ∧ ((routineFinalize
        (routineFinalize { today := none, points := 0 }
          [true, false, false] [false, false, false])
        [true, true, true] [true, true, true]).today.map
          DailyRoutineRec.points_awarded) = some 5 := by
  decide

/-- Claim C1 (amended): routine finalization is idempotent once the
date has been finalized with a complete routine — any further finalize
leaves the whole state (stored record and total points) unchanged —
and re-finalizing with unchanged checkbox states is always a no-op.
It is not idempotent across checkbox changes after an incomplete
finalize: a later finalize that finds the routine complete awards the
one-off +5 (see the counterexample). -/
theorem routineFinalize_idempotent :
    ∀ (s : RoutineState) (m e m2 e2 : List Bool),
      routineFinalize (routineFinalize s m e) m e = routineFinalize s m e
      ∧ (finalizedComplete s = true → routineFinalize s m2 e2 = s) := by
  intro s m e m2 e2
  constructor
  · cases hb : finalizedComplete s with
    | true => simp [routineFinalize, hb]
    | false =>
        have hre : routineFinalize s m e =
            RoutineState.mk
              (some (DailyRoutineRec.mk m e
                (m.count true + e.count true == m.length + e.length)
                (if (m.count true + e.count true == m.length + e.length) then 5 else 0)))
              (s.points +
                (if (m.count true + e.count true == m.length + e.length) then 5 else 0)) := by
          unfold routineFinalize
          rw [hb]
          simp
        rw [hre]
        cases hc : (m.count true + e.count true == m.length + e.length) with
        | true => simp [routineFinalize, finalizedComplete, hc]
        | false => simp [routineFinalize, finalizedComplete, hc]
  · intro h
    simp [routineFinalize, h]

/-- Claim C1 witness: the amended theorem applied at concrete inputs;
the second part's hypothesis (a date already finalized complete) is
discharged on an explicit state. -/
theorem routineFinalize_idempotent_witness :
    routineFinalize
        (routineFinalize { today := none, points := 0 } [true] [true, false])
        [true] [true, false]
      = routineFinalize { today := none, points := 0 } [true] [true, false]
    ∧ routineFinalize
        { today := some { morning := [true], evening := [true],
                          is_complete := true, points_awarded := 5 }, points := 5 }
        [false] [false]
      = { today := some { morning := [true], evening := [true],
                          is_complete := true, points_awarded := 5 }, points := 5 } :=
  ⟨(routineFinalize_idempotent { today := none, points := 0 }
      [true] [true, false] [false] [false]).1,
   (routineFinalize_idempotent
      { today := some { morning := [true], evening := [true],
                        is_complete := true, points_awarded := 5 }, points := 5 }
      [true] [true] [false] [false]).2 (by decide)⟩

/-! ## Claim C2 — checker high-water awarding -/

/-- Claim C2: over any finite sequence of checker finalizes starting
from a fresh date (no award yet), the total points granted equal
5 × the maximum completed-task count observed at any finalize, and
`checker_points_awarded` ends at that high-water mark; moreover a
finalize that observes a count below the high-water mark persists the
reduced task state but decreases neither the user's points nor the
stored `checker_points_awarded`. -/
theorem checker_award_highwater :
    ∀ (p0 : ℕ) (css : List (List Bool)) (s : CheckerState) (c : List Bool),
      ((css.foldl checkerFinalize
          { checker := [], checker_points_awarded := 0, points := p0 }).points
          = p0 + 5 * maxCount css
        ∧ (css.foldl checkerFinalize
            { checker := [], checker_points_awarded := 0, points := p0 }).checker_points_awarded
          = 5 * maxCount css)
      ∧ (c.count true * 5 < s.checker_points_awarded →
          (checkerFinalize s c).checker = c
          ∧ (checkerFinalize s c).points = s.points
          ∧ (checkerFinalize s c).checker_points_awarded = s.checker_points_awarded) := by
  intro p0 css s c
  refine ⟨⟨?_, ?_⟩, ?_⟩
  · have h := (checkerFinalize_fold css
      { checker := [], checker_points_awarded := 0, points := p0 }).1
    simp only at h
    rw [h]; omega
  · have h := (checkerFinalize_fold css
      { checker := [], checker_points_awarded := 0, points := p0 }).2
    simp only at h
    rw [h]; omega
  · intro h
    have h1 : ¬ s.checker_points_awarded < c.count true * 5 := by omega
    refine ⟨?_, ?_, ?_⟩ <;> simp [checkerFinalize, h1, h]

/-- Claim C2 witness: three finalizes on one date — 2 tasks, then 3
tasks, then back to 1 task — grant 15 = 5 × 3 points in total and the
low third finalize persists its task state without reducing points or
the recorded award. -/
theorem checker_award_highwater_witness :
    (([[true, true], [true, true, true], [true]]).foldl checkerFinalize
        { checker := [], checker_points_awarded := 0, points := 7 }).points
      = 7 + 5 * maxCount [[true, true], [true, true, true], [true]]
    ∧ (checkerFinalize
        { checker := [true, true], checker_points_awarded := 10, points := 17 }
        [false, true]).points = 17 :=
  ⟨(checker_award_highwater 7 [[true, true], [true, true, true], [true]]
      { checker := [], checker_points_awarded := 0, points := 0 } []).1.1,
   ((checker_award_highwater 0 []
      { checker := [true, true], checker_points_awarded := 10, points := 17 }
      [false, true]).2 (by decide)).2.1⟩

/-! ## Claim C4 — streak computation -/

/-- Claim C4, counterexample: with exactly the 150 consecutive days
ending yesterday complete (and the day before those incomplete), the
dashboard's backward walk stops after 99 iterations
(`for i in range(1, 100)`), so the streak reads 99, not 150 as the
claim requires for every N ≥ 1. -/
theorem streak_capped_at_99 :
    streakCount (fun i => decide (1 ≤ i ∧ i ≤ 150)) = 99
    ∧ streakCount (fun i => decide (1 ≤ i ∧ i ≤ 150)) ≠ 150 := by
  decide

/-- Claim C4 (amended): a user with no completion history reads a
streak of 0, and when exactly the N consecutive days ending yesterday
are complete the streak computed today equals min N 99 — the claimed N
for every N ≤ 99, but the backward walk examines at most the 99 days
`range(1, 100)` and therefore caps at 99.  A single incomplete day
still stops the walk (the characteristic-interval shape is exactly the
"first gap" behaviour). -/
theorem streak_reads_min_99 :
    streakCount (fun _ => false) = 0
    ∧ ∀ N : ℕ, streakCount (fun i => decide (1 ≤ i ∧ i ≤ N)) = min N 99 := by
  constructor
  · simp [streakCount]
  · intro N
    unfold streakCount
    by_cases h1 : 1 ≤ N
    · have hd : (fun i => decide (1 ≤ i ∧ i ≤ N)) 1 = true := by simp [h1]
      rw [hd, if_pos rfl, takeWhile_range'_window N 99 1 (le_refl 1)]
      omega
    · have hN : N = 0 := by omega
      subst hN
      simp

/-! ## Claim C8 — registration contract -/

/-- Claim C8: registering an already-taken username fails and leaves
both the credential store and the application store exactly unchanged;
registering a fresh username with non-empty credentials succeeds,
stores the salted hash `digest(password ++ salt)` with its salt, and a
subsequent authentication of that username with the same password
succeeds. -/
theorem register_duplicate_and_fresh :
    ∀ (digest : String → String) (users : List (String × CredRecord))
      (data : List (String × UserData)) (u p salt : String),
      ((users.lookup u).isSome = true →
        registerSubmit digest users data u p salt = (users, data, false))
      ∧ (users.lookup u = none → u ≠ "" → p ≠ "" →
          ((registerSubmit digest users data u p salt).1.lookup u
              = some { password := digest (p ++ salt), salt := salt }
            ∧ (registerSubmit digest users data u p salt).2.2 = true
            ∧ authenticate digest (registerSubmit digest users data u p salt).1 u p
              = true)) := by
  intro digest users data u p salt
  constructor
  · intro h
    simp [registerSubmit, h]
  · intro h hu hp
    have hs : (users.lookup u).isSome = false := by simp [h]
    have hlook := lookup_append_of_none users u
      ({ password := digest (p ++ salt), salt := salt } : CredRecord) h
    have hfst : (registerSubmit digest users data u p salt).1
        = users ++ [(u, { password := digest (p ++ salt), salt := salt })] := by
      simp [registerSubmit, hs, hu, hp, hash_password]
    refine ⟨?_, ?_, ?_⟩
    · rw [hfst]; exact hlook
    · simp [registerSubmit, hs, hu, hp]
    · rw [authenticate, hfst, hlook]
      simp [check_password]

/-- Claim C8 witness: with a one-entry credential store, re-registering
"alice" is refused with the stores unchanged, and registering the fresh
"bob" stores a record that authenticates with the same password. -/
theorem register_duplicate_and_fresh_witness :
    registerSubmit id [("alice", { password := "h", salt := "s" })] [] "alice" "pw" "s1"
      = ([("alice", { password := "h", salt := "s" })], [], false)
    ∧ authenticate id
        (registerSubmit id [("alice", { password := "h", salt := "s" })] [] "bob" "pw" "s1").1
        "bob" "pw" = true :=
  ⟨(register_duplicate_and_fresh id [("alice", { password := "h", salt := "s" })]
      [] "alice" "pw" "s1").1 (by decide),
   ((register_duplicate_and_fresh id [("alice", { password := "h", salt := "s" })]
      [] "bob" "pw" "s1").2 (by decide) (by decide) (by decide)).2.2⟩

/-! ## Claim C10 — empty credentials are rejected without mutation -/

/-- Claim C10: for a username that is not yet taken, submitting the
registration form with an empty username or an empty password fails
and mutates no state: the credential store and the application store
are returned exactly unchanged. -/
theorem register_empty_rejected :
    ∀ (digest : String → String) (users : List (String × CredRecord))
      (data : List (String × UserData)) (u p salt : String),
      users.lookup u = none → (u = "" ∨ p = "") →
      registerSubmit digest users data u p salt = (users, data, false) := by
  intro digest users data u p salt h he
  have hs : (users.lookup u).isSome = false := by simp [h]
  simp [registerSubmit, hs, he]

/-- Claim C10 witness: an empty username with a non-empty password on
an empty store is rejected with both stores unchanged. -/
theorem register_empty_rejected_witness :
    registerSubmit id [] [] "" "pw" "s1" = ([], [], false) :=
  register_empty_rejected id [] [] "" "pw" "s1" (by decide) (Or.inl rfl)

/-! ## Claim C3 — score and risk fields are bounded -/

lemma analysisFromFeatures_bounds (ft : ImageFeatures) (lf : LifestyleFactors)
    (ob : Onboarding) :
    50 ≤ (analysisFromFeatures ft lf ob).current_score
    ∧ (analysisFromFeatures ft lf ob).current_score ≤ 95
    ∧ 50 ≤ (analysisFromFeatures ft lf ob).hydration_score
    ∧ (analysisFromFeatures ft lf ob).hydration_score ≤ 99
    ∧ 10 ≤ (analysisFromFeatures ft lf ob).acne_risk_pct
    ∧ (analysisFromFeatures ft lf ob).acne_risk_pct ≤ 90
    ∧ 5 ≤ (analysisFromFeatures ft lf ob).pigmentation_risk_pct
    ∧ (analysisFromFeatures ft lf ob).pigmentation_risk_pct ≤ 70 := by
  unfold analysisFromFeatures
  dsimp only
  refine ⟨?_, ?_, ?_, ?_, ?_, ?_, ?_, ?_⟩ <;> omega

/-- Claim C3: for every lifestyle input in the documented slider ranges,
every image-feature outcome (a decoded image or the fallback) and every
skin type, the analysis result satisfies `currentScore ∈ [50, 95]`,
`hydrationScore ∈ [50, 99]`, `acneRiskPct ∈ [10, 90]` and
`pigmentationRiskPct ∈ [5, 70]`. -/
theorem analysis_scores_bounded :
    ∀ (decoded : Option RGBMeans) (lf : LifestyleFactors) (ob : Onboarding),
      4 ≤ lf.sleep_hours → lf.sleep_hours ≤ 12 →
      1/2 ≤ lf.water_intake → lf.water_intake ≤ 4 →
      1 ≤ lf.stress_level → lf.stress_level ≤ 10 →
      1 ≤ lf.diet_quality → lf.diet_quality ≤ 5 →
      (50 ≤ (pseudo_analyze_image decoded lf ob).current_score
       ∧ (pseudo_analyze_image decoded lf ob).current_score ≤ 95
       ∧ 50 ≤ (pseudo_analyze_image decoded lf ob).hydration_score
       ∧ (pseudo_analyze_image decoded lf ob).hydration_score ≤ 99
       ∧ 10 ≤ (pseudo_analyze_image decoded lf ob).acne_risk_pct
       ∧ (pseudo_analyze_image decoded lf ob).acne_risk_pct ≤ 90
       ∧ 5 ≤ (pseudo_analyze_image decoded lf ob).pigmentation_risk_pct
       ∧ (pseudo_analyze_image decoded lf ob).pigmentation_risk_pct ≤ 70) := by
  intro decoded lf ob _ _ _ _ _ _ _ _
  cases decoded with
  | none => exact analysisFromFeatures_bounds fallbackFeatures lf ob
  | some m => exact analysisFromFeatures_bounds (extract_features m) lf ob

/-- Claim C3 witness: the bounds applied at the documented default
inputs (sleep 7, water 2.0, stress 5, diet 3) on the fallback image
path. -/
theorem analysis_scores_bounded_witness :
    50 ≤ (pseudo_analyze_image none
      { sleep_hours := 7, water_intake := 2, stress_level := 5, diet_quality := 3 }
      { skin_type := "Normal", primary_concerns := [] }).current_score :=
  (analysis_scores_bounded none
    { sleep_hours := 7, water_intake := 2, stress_level := 5, diet_quality := 3 }
    { skin_type := "Normal", primary_concerns := [] }
    (by norm_num) (by norm_num) (by norm_num) (by norm_num)
    (by norm_num) (by norm_num) (by norm_num) (by norm_num)).1

/-! ## Claim C9 — image-decode failure falls back to fixed features -/

/-- Claim C9: when image decoding fails, the analysis does not
propagate the error; it substitutes exactly the fallback features
(raw brightness 150, i.e. 150/255 normalized; contrast 1.0;
redness 1.0) and returns the complete analysis result computed from
those fixed features and the given lifestyle inputs and profile. -/
theorem analysis_fallback_on_decode_failure :
    ∀ (lf : LifestyleFactors) (ob : Onboarding),
      pseudo_analyze_image none lf ob
        = analysisFromFeatures
            { avg_brightness := 150, contrast_heuristic := 1.0, redness_factor := 1.0 }
            lf ob :=
  fun _ _ => rfl

/-! ## Claim C7 — routine generation rules -/

lemma analysisFromFeatures_routine (ft : ImageFeatures) (lf : LifestyleFactors)
    (ob : Onboarding) :
    (analysisFromFeatures ft lf ob).routine_morning
      = ["Cleanse: Gentle Hydrating Cleanser", "Treat: Vitamin C Serum",
         "Protect: SPF 30+ Sunscreen"]
    ∧ (analysisFromFeatures ft lf ob).routine_evening
      = (if "Acne" ∈ ob.primary_concerns ∨ (analysisFromFeatures ft lf ob).acne_risk_pct > 50
         then ["Cleanse: Double Cleanse (Oil + Foam)", "Treat: Salicylic Acid (BHA) Serum",
               "Moisturize: Barrier Repair Cream"]
         else ["Cleanse: Double Cleanse (Oil + Foam)", "Treat: Niacinamide Serum",
               "Moisturize: Barrier Repair Cream"])
        ++ (if "Wrinkles" ∈ ob.primary_concerns
            then ["Treat: Retinoid Cream (3x/week)"] else []) := by
  unfold analysisFromFeatures
  dsimp only
  constructor
  · rfl
  · by_cases hA : "Acne" ∈ ob.primary_concerns
        ∨ min 90 (max 10 (pyInt ((if ob.skin_type = "Oily" ∨ ob.skin_type = "Combination"
            then 50 - ((max 50 (min 95 (pyInt (rawScore ft lf))) : ℤ) : ℚ) / 2 + 10
            else 50 - ((max 50 (min 95 (pyInt (rawScore ft lf))) : ℤ) : ℚ) / 2)
            + (1 - stressScore lf) * 15 + (1 - dietScore lf) * 10))) > 50 <;>
      by_cases hW : "Wrinkles" ∈ ob.primary_concerns <;>
      simp [hA, hW]

/-- Claim C7: independently of all inputs, the generated routine starts
from the fixed base of exactly 3 morning steps and 3 evening steps; the
evening "treat" step (position 2) is replaced by the salicylic-acid/BHA
step exactly when "Acne" is a self-reported concern or the computed
`acne_risk_pct` exceeds 50; a retinoid step is appended to the evening
routine exactly when "Wrinkles" is a concern; nothing else changes the
step lists. -/
theorem routine_generation_rules :
    ∀ (decoded : Option RGBMeans) (lf : LifestyleFactors) (ob : Onboarding),
      (pseudo_analyze_image decoded lf ob).routine_morning
        = ["Cleanse: Gentle Hydrating Cleanser", "Treat: Vitamin C Serum",
           "Protect: SPF 30+ Sunscreen"]
      ∧ (pseudo_analyze_image decoded lf ob).routine_evening
        = (if "Acne" ∈ ob.primary_concerns
              ∨ (pseudo_analyze_image decoded lf ob).acne_risk_pct > 50
           then ["Cleanse: Double Cleanse (Oil + Foam)", "Treat: Salicylic Acid (BHA) Serum",
                 "Moisturize: Barrier Repair Cream"]
           else ["Cleanse: Double Cleanse (Oil + Foam)", "Treat: Niacinamide Serum",
                 "Moisturize: Barrier Repair Cream"])
          ++ (if "Wrinkles" ∈ ob.primary_concerns
              then ["Treat: Retinoid Cream (3x/week)"] else []) := by
  intro decoded lf ob
  cases decoded with
  | none => exact analysisFromFeatures_routine fallbackFeatures lf ob
  | some m => exact analysisFromFeatures_routine (extract_features m) lf ob

/-! ## Claim C5 — rounding mode of the integer fields -/

/-- Claim C5, counterexample: at sleep 7, water 2.0, stress 5, diet 3
on the fallback image path, the produced `hydration_score` is 53
(truncation of 910/17 ≈ 53.53), while the claimed round-to-nearest
formula gives 54 — so the integer fields are not obtained by rounding
to the nearest integer. -/
theorem hydration_not_round_to_nearest :
    (pseudo_analyze_image none
        { sleep_hours := 7, water_intake := 2, stress_level := 5, diet_quality := 3 }
        { skin_type := "Normal", primary_concerns := [] }).hydration_score = 53
    ∧ clamp 50 99 (round (((2 : ℚ) / 4 * 0.6 + 150 / 255 * 0.4) * 100)) = 54 := by
  constructor
  · norm_num [pseudo_analyze_image, analysisFromFeatures, waterScore, fallbackFeatures, pyInt]
  · norm_num [clamp, round_eq]

/-- Claim C5 (amended): every integer field of the analysis is obtained
by Python `int()` truncation toward zero of its real-valued formula
(not rounding to nearest), with clamping applied after truncation (the
acne and pigmentation clamps are written min-outside in the source,
which coincides with `clamp` because the bounds are ordered); the 7-day
projection adds `max(0, futureDelta // 3)` using integer floor
division, with `futureDelta` itself truncated toward zero. -/
theorem analysis_fields_truncated :
    ∀ (ft : ImageFeatures) (lf : LifestyleFactors) (ob : Onboarding),
      ((analysisFromFeatures ft lf ob).current_score
          = clamp 50 95 (pyInt (rawScore ft lf)))
      ∧ ((analysisFromFeatures ft lf ob).hydration_score
          = clamp 50 99 (pyInt ((waterScore lf * 0.6 + ft.avg_brightness / 255 * 0.4) * 100)))
      ∧ ((analysisFromFeatures ft lf ob).acne_risk_pct
          = clamp 10 90 (pyInt ((50 - ((analysisFromFeatures ft lf ob).current_score : ℚ) / 2)
              + oilyBonus ob + (1 - stressScore lf) * 15 + (1 - dietScore lf) * 10)))
      ∧ ((analysisFromFeatures ft lf ob).pigmentation_risk_pct
          = clamp 5 70 (pyInt (20 + (1 - baseImageScore ft) * 15 + (1 - waterScore lf) * 10)))
      ∧ ((analysisFromFeatures ft lf ob).future_score_proj_7
          = min 100 ((analysisFromFeatures ft lf ob).current_score
              + max 0 (Int.fdiv (pyInt ((lifestyleImpact lf - 0.5) * 20)) 3)))
      ∧ ((analysisFromFeatures ft lf ob).sleep_impact_pct
          = pyInt ((1 - sleepScore lf) * 100))
      ∧ ((analysisFromFeatures ft lf ob).stress_impact_pct
          = pyInt ((1 - stressScore lf) * 100)) := by
  intro ft lf ob
  unfold analysisFromFeatures clamp
  dsimp only
  refine ⟨rfl, rfl, ?_, ?_, rfl, rfl, rfl⟩
  · by_cases hc : ob.skin_type = "Oily" ∨ ob.skin_type = "Combination"
    · simp only [oilyBonus, if_pos hc]
      omega
    · simp only [oilyBonus, if_neg hc, add_zero]
      omega
  · omega

/-! ## Claim C6 — the documented floor-clamp scenario -/

/-- Claim C6: with sleep 7, water 2.0, stress 5, diet 3 and the
fallback image features (brightness 150/255, contrast 1.0,
redness 1.0), the raw score is exactly 3299/85 ≈ 38.81 (approximately
38.8) and the returned `current_score` is exactly 50 — the floor clamp
applies. -/
theorem example_scenario_floor_clamp :
    rawScore fallbackFeatures
        { sleep_hours := 7, water_intake := 2, stress_level := 5, diet_quality := 3 }
      = 3299 / 85
    ∧ (38.8 : ℚ) < 3299 / 85
    ∧ (3299 / 85 : ℚ) < 38.82
    ∧ (pseudo_analyze_image none
        { sleep_hours := 7, water_intake := 2, stress_level := 5, diet_quality := 3 }
        { skin_type := "Normal", primary_concerns := [] }).current_score = 50 := by
  refine ⟨?_, by norm_num, by norm_num, ?_⟩
  · norm_num [rawScore, baseImageScore, lifestyleImpact, sleepScore, waterScore,
      stressScore, dietScore, fallbackFeatures]
  · norm_num [pseudo_analyze_image, analysisFromFeatures, rawScore, baseImageScore,
      lifestyleImpact, sleepScore, waterScore, stressScore, dietScore, fallbackFeatures, pyInt]

end Skinova
